import Mathlib

/-!
Shallow embedding of the chatbot repository's core logic:
`src/config.py`, `src/llm_service.py` and `src/chat_manager.py`.

External effects are made explicit:
- the remote chat-completion call (`self.client.chat.completions.create`)
  becomes an oracle `remote : ApiRequest → Nat → ApiOutcome` giving the
  outcome of each attempt;
- wall-clock readings (`time.time() - start_time`) become an abstract
  function `elapsed : Nat → Rat` giving the elapsed time observed when
  attempt `n` finishes;
- `datetime.now()` in the chat store becomes explicit `Nat` timestamp
  arguments (one per call site of `datetime.now()` that matters);
- the JSON file directory becomes an association list keyed by
  conversation id, written by prepending (the most recent write wins on
  lookup, as a file overwrite does).

Python floats are modelled as exact rationals (`Rat`).
-/

namespace Chatbot

/-! ### src/config.py -/

namespace Config

/-- `Config.MAX_MESSAGE_LENGTH` from `src/config.py`. -/
def MAX_MESSAGE_LENGTH : Nat := 4000

/-- `Config.API_TIMEOUT` from `src/config.py`. -/
def API_TIMEOUT : Nat := 30

/-- `Config.MAX_RETRIES` from `src/config.py`. -/
def MAX_RETRIES : Nat := 3

end Config

/-! ### src/llm_service.py : data -/

/-- One entry of the `self.models` capability table. -/
structure ModelInfo where
  name : String
  description : String
  cost_per_1k : Rat
  max_tokens : Nat
  supports_functions : Bool
deriving DecidableEq, Repr

/-- Association-list lookup, used for the model table and the store.
First match wins (for the store, the most recent write is the first entry). -/
def alookup {α β : Type} [DecidableEq α] : List (α × β) → α → Option β
  | [], _ => none
  | (k, v) :: rest, a => if k = a then some v else alookup rest a

/-- The `self.models` dictionary of `LLMService.__init__`. -/
def models : List (String × ModelInfo) :=
  [("gpt-3.5-turbo",
    ModelInfo.mk "GPT-3.5 Turbo" "Fast and efficient for most tasks" 0.0015 4096 true),
   ("gpt-4",
    ModelInfo.mk "GPT-4" "Most capable model for complex tasks" 0.03 8192 true),
   ("gpt-4-turbo",
    ModelInfo.mk "GPT-4 Turbo" "Latest GPT-4 with improved speed" 0.01 128000 true)]

/-- One `{"role": ..., "content": ...}` prompt entry. -/
structure ChatMsg where
  role : String
  content : String
deriving DecidableEq, Repr

/-- The request passed to `self.client.chat.completions.create`. -/
structure ApiRequest where
  model : String
  messages : List ChatMsg
  max_tokens : Nat
  temperature : Rat
  timeout : Nat
deriving DecidableEq, Repr

/-- The `message` object inside one choice of a remote response;
`content` may be absent (`None`). -/
structure ApiMessage where
  content : Option String
deriving DecidableEq, Repr

/-- One element of `response.choices`; the `message` attribute may be `None`. -/
structure ApiChoice where
  message : Option ApiMessage
deriving DecidableEq, Repr

/-- A remote response that did not raise: `choices` and
`usage.total_tokens` (absent when `usage` is `None`). -/
structure ApiSuccess where
  choices : List ApiChoice
  usage : Option Nat
deriving DecidableEq, Repr

/-- Outcome of one remote attempt: either a response object or the raised
exception, by its dynamic class (`msg` is `str(e)`). Note the openai v1
class hierarchy: `RateLimitError` and `AuthenticationError` are
subclasses of `APIError`, so Python's in-order `except` dispatch sends
all three to the first clause, `except openai.APIError`. -/
inductive ApiOutcome where
  | ok (r : ApiSuccess)
  | apiError (msg : String)
  | rateLimit (msg : String)
  | authError (msg : String)
  | unexpected (msg : String)
deriving DecidableEq, Repr

/-- The outcomes the spec classifies as transient failures: rate limit,
generic API error, generic unexpected exception. -/
def isTransient : ApiOutcome → Bool
  | ApiOutcome.apiError _ => true
  | ApiOutcome.rateLimit _ => true
  | ApiOutcome.unexpected _ => true
  | _ => false

/-- The dictionary returned by `send_message`. Keys present only in some
branches of the source become `Option` fields (`none` = key absent). -/
structure SendResult where
  success : Bool
  response : Option String
  error : Option String
  response_time : Rat
  model_used : Option String
  tokens_used : Option Nat
  estimated_cost : Option Rat
deriving DecidableEq, Repr

/-! ### src/llm_service.py : operations -/

/-- Python's `str.strip()`: drop leading and trailing whitespace. -/
def pyStrip (s : String) : String :=
  String.mk (((s.toList.dropWhile Char.isWhitespace).reverse.dropWhile
    Char.isWhitespace).reverse)

/-- `LLMService.estimate_cost`: `0.0` for a model not in the table,
otherwise `(len(message) / 4 / 1000) * cost_per_1k`. -/
def estimate_cost (message : String) (model : String) : Rat :=
  match alookup models model with
  | none => 0
  | some mi => (message.length : Rat) / 4 / 1000 * mi.cost_per_1k

/-- The model-fallback step of `send_message` (lines 90-92):
an unknown model id is replaced by `"gpt-3.5-turbo"`. -/
def resolve_model (model : String) : String :=
  match alookup models model with
  | some _ => model
  | none => "gpt-3.5-turbo"

/-- `self.models[model]["max_tokens"]` (the model is always in the table
at this point in the source; `0` is an unreachable default). -/
def model_max_tokens (model : String) : Nat :=
  match alookup models model with
  | some mi => mi.max_tokens
  | none => 0

/-- `max(0.0, min(2.0, temperature))` — the clamp of line 108. -/
def clamp_temperature (t : Rat) : Rat := max 0 (min 2 t)

/-- The prompt list built at lines 95-98: an optional system turn (only
when `system_prompt` is truthy, i.e. present and non-empty), then the
user turn. -/
def build_messages (message : String) (system_prompt : Option String) : List ChatMsg :=
  (match system_prompt with
   | some sp => if sp = "" then [] else [ChatMsg.mk "system" sp]
   | none => []) ++ [ChatMsg.mk "user" message]

/-- The (attempt-independent) request `send_message` passes to the remote
call: resolved model, assembled messages, `max_tokens` clamped to the
model's ceiling, clamped temperature, configured timeout. -/
def sendRequest (message model : String) (temperature : Rat) (max_tokens : Nat)
    (system_prompt : Option String) : ApiRequest :=
  ApiRequest.mk (resolve_model model) (build_messages message system_prompt)
    (min max_tokens (model_max_tokens (resolve_model model)))
    (clamp_temperature temperature) Config.API_TIMEOUT

/-- The `for attempt in range(Config.MAX_RETRIES)` loop of `send_message`,
as structural recursion on the remaining iterations (`fuel`). Returns the
result (`none` only if the loop runs out without returning, impossible
for `fuel > 0` reached branches) paired with the number of remote calls
made. `res_model` is the resolved model (the `model` variable after the
fallback of line 92).

Exception dispatch follows Python's in-order `isinstance` matching: an
`openai.RateLimitError` or `openai.AuthenticationError` is a subclass of
`openai.APIError` in openai v1, so the first clause
(`except openai.APIError`, line 132) catches all three and the dedicated
handlers at lines 143-160 are unreachable. All three therefore retry
with the `"API Error: ..."` message on exhaustion. -/
def send_attempts (remote : ApiRequest → Nat → ApiOutcome) (elapsed : Nat → Rat)
    (req : ApiRequest) (message res_model : String) :
    Nat → Nat → Option SendResult × Nat
  | _, 0 => (none, 0)
  | attempt, fuel + 1 =>
    match remote req attempt with
    | ApiOutcome.ok r =>
      match r.choices with
      | [] =>
        (some (SendResult.mk false none (some "Empty response from API")
          (elapsed attempt) none none none), 1)
      | c :: _ =>
        match c.message with
        | none =>
          (some (SendResult.mk false none (some "Empty response from API")
            (elapsed attempt) none none none), 1)
        | some m =>
          (some (SendResult.mk true m.content none (elapsed attempt)
            (some res_model) r.usage (some (estimate_cost message res_model))), 1)
    | ApiOutcome.apiError e | ApiOutcome.rateLimit e | ApiOutcome.authError e =>
      if attempt = Config.MAX_RETRIES - 1 then
        (some (SendResult.mk false none (some ("API Error: " ++ e))
          (elapsed attempt) none none none), 1)
      else
        let rest := send_attempts remote elapsed req message res_model (attempt + 1) fuel
        (rest.1, rest.2 + 1)
    | ApiOutcome.unexpected e =>
      if attempt = Config.MAX_RETRIES - 1 then
        (some (SendResult.mk false none (some ("Unexpected error: " ++ e))
          (elapsed attempt) none none none), 1)
      else
        let rest := send_attempts remote elapsed req message res_model (attempt + 1) fuel
        (rest.1, rest.2 + 1)

/-- `LLMService.send_message`: validation (empty / whitespace-only
message, over-length message), then the retry loop. Returns the result
paired with the number of remote calls made. -/
def send_message (remote : ApiRequest → Nat → ApiOutcome) (elapsed : Nat → Rat)
    (message model : String) (temperature : Rat) (max_tokens : Nat)
    (system_prompt : Option String) : Option SendResult × Nat :=
  if message = "" ∨ pyStrip message = "" then
    (some (SendResult.mk false none (some "Empty message provided") 0 none none none), 0)
  else if Config.MAX_MESSAGE_LENGTH < message.length then
    (some (SendResult.mk false none
      (some ("Message too long. Maximum " ++ toString Config.MAX_MESSAGE_LENGTH
        ++ " characters allowed.")) 0 none none none), 0)
  else
    send_attempts remote elapsed
      (sendRequest message model temperature max_tokens system_prompt)
      message (resolve_model model) 0 Config.MAX_RETRIES

/-! ### src/chat_manager.py -/

/-- One element of a conversation's `messages` list. Timestamps are
abstract `Nat` instants; metadata is an opaque string map. -/
structure ChatMessage where
  role : String
  content : String
  timestamp : Nat
  metadata : List (String × String)
deriving DecidableEq, Repr

/-- The persisted conversation record. -/
structure Conversation where
  id : Nat
  title : String
  created_at : Nat
  updated_at : Nat
  messages : List ChatMessage
deriving DecidableEq, Repr

/-- The storage directory: one record per conversation id. A save
prepends, and `alookup` returns the most recent write, which is how a
file overwrite behaves. -/
abbrev Store := List (Nat × Conversation)

/-- The auto-generated title
`f"Chat {datetime.now().strftime('%B %d at %I:%M %p')}"`, with the
`strftime` rendering of the instant abstracted to `toString`. -/
def autoTitle (now : Nat) : String := "Chat " ++ toString now

/-- `ChatManager.save_conversation`: overwrites the record's
`updated_at` with the current time and writes the record under its id. -/
def save_conversation (s : Store) (conversation_id : Nat) (data : Conversation)
    (now : Nat) : Store :=
  (conversation_id,
    Conversation.mk data.id data.title data.created_at now data.messages) :: s

/-- `ChatManager.load_conversation`: the record for the id, or `none`. -/
def load_conversation (s : Store) (conversation_id : Nat) : Option Conversation :=
  alookup s conversation_id

/-- `ChatManager.create_conversation`: the id is derived from the
creation instant `now` (the second-resolution `strftime` id, modelled as
the instant itself); the title defaults when the argument is falsy
(`None` or `""`); the record is persisted through `save_conversation`,
whose own `datetime.now()` call is the later instant `nowSave`. -/
def create_conversation (s : Store) (title : Option String)
    (now nowSave : Nat) : Nat × Store :=
  let conversation_id := now
  let t := match title with
    | none => autoTitle now
    | some t0 => if t0 = "" then autoTitle now else t0
  (conversation_id,
    save_conversation s conversation_id
      (Conversation.mk conversation_id t now now []) nowSave)

/-- `ChatManager.add_message`: load, return `false` untouched when the
conversation does not exist, otherwise append a message stamped `now`
and persist at the later instant `nowSave`. -/
def add_message (s : Store) (conversation_id : Nat) (role content : String)
    (metadata : Option (List (String × String))) (now nowSave : Nat) :
    Bool × Store :=
  match load_conversation s conversation_id with
  | none => (false, s)
  | some conversation =>
    let msg := ChatMessage.mk role content now (metadata.getD [])
    (true, save_conversation s conversation_id
      (Conversation.mk conversation.id conversation.title conversation.created_at
        conversation.updated_at (conversation.messages ++ [msg]))
      nowSave)

/-- Well-formedness of a store at wall-clock bound `t`: every stored
record has `created_at ≤ updated_at ≤ t`. -/
def StoreWF (s : Store) (t : Nat) : Prop :=
  ∀ conversation_id c, load_conversation s conversation_id = some c →
    c.created_at ≤ c.updated_at ∧ c.updated_at ≤ t

/-- Stores reachable through the `ChatManager` operations under a
monotone clock: starting empty, creating conversations, re-saving a
loaded record with its message list edited (the pattern of the callers),
and appending messages. `t` is an upper bound on all clock readings so
far. -/
inductive Reachable : Store → Nat → Prop where
  | empty (t : Nat) : Reachable [] t
  | tick {s : Store} {t t' : Nat} : Reachable s t → t ≤ t' → Reachable s t'
  | create {s : Store} {t : Nat} (title : Option String) (now nowSave : Nat) :
      Reachable s t → t ≤ now → now ≤ nowSave →
      Reachable (create_conversation s title now nowSave).2 nowSave
  | save {s : Store} {t : Nat} {c : Conversation}
      (conversation_id : Nat) (msgs : List ChatMessage) (now : Nat) :
      Reachable s t → load_conversation s conversation_id = some c → t ≤ now →
      Reachable (save_conversation s conversation_id
        (Conversation.mk c.id c.title c.created_at c.updated_at msgs) now) now
  | add {s : Store} {t : Nat} (conversation_id : Nat) (role content : String)
      (metadata : Option (List (String × String))) (now nowSave : Nat) :
      Reachable s t → t ≤ now → now ≤ nowSave →
      Reachable (add_message s conversation_id role content metadata now nowSave).2 nowSave

/-! ### Concrete fixtures used by witnesses -/

/-- A remote endpoint that raises `openai.AuthenticationError` on every
attempt. -/
def authRemote : ApiRequest → Nat → ApiOutcome := fun _ _ => ApiOutcome.authError "bad key"

/-- A remote endpoint that raises `openai.RateLimitError` on every
attempt. -/
def flakyRemote : ApiRequest → Nat → ApiOutcome := fun _ _ => ApiOutcome.rateLimit "busy"

/-- A wall clock whose elapsed-time readings are all `0`. -/
def zeroElapsed : Nat → Rat := fun _ => 0

/-! ### Helper lemmas -/

/-- A message that passes both validation checks reaches the retry loop
with the assembled request and the resolved model. -/
theorem send_message_valid (remote : ApiRequest → Nat → ApiOutcome) (elapsed : Nat → Rat)
    (message model : String) (temperature : Rat) (max_tokens : Nat)
    (system_prompt : Option String)
    (hv : ¬(message = "" ∨ pyStrip message = ""))
    (hlen : ¬ Config.MAX_MESSAGE_LENGTH < message.length) :
    send_message remote elapsed message model temperature max_tokens system_prompt =
      send_attempts remote elapsed
        (sendRequest message model temperature max_tokens system_prompt)
        message (resolve_model model) 0 Config.MAX_RETRIES := by
  unfold send_message
  rw [if_neg hv, if_neg hlen]

/-- Looking a key up after a write finds the written record first. -/
theorem load_cons (k : Nat) (v : Conversation) (s : Store) (cid : Nat) :
    load_conversation ((k, v) :: s) cid =
      if k = cid then some v else load_conversation s cid := rfl

/-- Every store reachable through the `ChatManager` operations under a
monotone clock is well-formed at the clock bound. -/
theorem reachable_storeWF {s : Store} {t : Nat} (h : Reachable s t) : StoreWF s t := by
  induction h with
  | empty t =>
    intro cid c hc
    simp [load_conversation, alookup] at hc
  | @tick s t t' hr hle ih =>
    intro cid c hc
    exact ⟨(ih cid c hc).1, (ih cid c hc).2.trans hle⟩
  | @create s t title now nowSave hr h1 h2 ih =>
    intro cid c hc
    simp only [create_conversation, save_conversation, load_cons] at hc
    split at hc
    · cases hc
      exact ⟨h2, Nat.le_refl _⟩
    · exact ⟨(ih cid c hc).1, ((ih cid c hc).2.trans h1).trans h2⟩
  | @save s t c0 conversation_id msgs now hr hload h1 ih =>
    intro cid c hc
    simp only [save_conversation, load_cons] at hc
    split at hc
    · cases hc
      exact ⟨((ih _ _ hload).1.trans (ih _ _ hload).2).trans h1, Nat.le_refl _⟩
    · exact ⟨(ih cid c hc).1, (ih cid c hc).2.trans h1⟩
  | @add s t conversation_id role content metadata now nowSave hr h1 h2 ih =>
    intro cid c hc
    rcases hload : load_conversation s conversation_id with _ | conv
    · simp only [add_message, hload] at hc
      exact ⟨(ih cid c hc).1, ((ih cid c hc).2.trans h1).trans h2⟩
    · simp only [add_message, hload, save_conversation, load_cons] at hc
      split at hc
      · cases hc
        exact ⟨(((ih _ _ hload).1.trans (ih _ _ hload).2).trans h1).trans h2, Nat.le_refl _⟩
      · exact ⟨(ih cid c hc).1, ((ih cid c hc).2.trans h1).trans h2⟩

/-! ### Claim theorems -/

/-- C1: contrary to the claim (and to the handler the source carries at
lines 154-160), an authentication failure is caught by the earlier
`except openai.APIError` clause — `AuthenticationError` subclasses
`APIError` in openai v1 — so it is retried like a transient error: an
authentication failure on every attempt of the 3-attempt budget produces
`Config.MAX_RETRIES` (= 3) remote calls and the generic
`"API Error: ..."` failure, never the single-call immediate
`"Invalid API key..."` result of the unreachable handler. -/
theorem send_message_auth_error_retried (remote : ApiRequest → Nat → ApiOutcome)
    (elapsed : Nat → Rat) (message model : String) (temperature : Rat)
    (max_tokens : Nat) (system_prompt : Option String) (e : String)
    (hv : ¬(message = "" ∨ pyStrip message = ""))
    (hlen : ¬ Config.MAX_MESSAGE_LENGTH < message.length)
    (hauth : ∀ n, n < Config.MAX_RETRIES →
      remote (sendRequest message model temperature max_tokens system_prompt) n =
        ApiOutcome.authError e) :
    send_message remote elapsed message model temperature max_tokens system_prompt =
      (some (SendResult.mk false none (some ("API Error: " ++ e))
        (elapsed (Config.MAX_RETRIES - 1)) none none none), Config.MAX_RETRIES) := by
  rw [send_message_valid remote elapsed message model temperature max_tokens
    system_prompt hv hlen]
  have h0 := hauth 0 (by decide)
  have h1 := hauth 1 (by decide)
  have h2 := hauth 2 (by decide)
  simp [send_attempts, Config.MAX_RETRIES, h0, h1, h2]

/-- Witness for C1: a valid message against an endpoint that always
raises an authentication failure yields three calls, not one. -/
theorem send_message_auth_error_retried_witness :
    send_message authRemote zeroElapsed "hi" "gpt-4" (7/10) 1000 none =
      (some (SendResult.mk false none (some ("API Error: " ++ "bad key"))
        (zeroElapsed (Config.MAX_RETRIES - 1)) none none none), Config.MAX_RETRIES) :=
  send_message_auth_error_retried authRemote zeroElapsed "hi" "gpt-4" (7/10) 1000 none
    "bad key" (by decide) (by decide) (fun _ _ => rfl)

/-- C2: for every call to `send_message` that passes validation, if every
attempt raises a transient failure (rate limit, generic API error, or a
generic unexpected exception), `send_message` makes exactly
`Config.MAX_RETRIES` (= 3) remote calls and returns a failure result
carrying an error description. -/
theorem send_message_transient_exhausts_retries (remote : ApiRequest → Nat → ApiOutcome)
    (elapsed : Nat → Rat) (message model : String) (temperature : Rat)
    (max_tokens : Nat) (system_prompt : Option String)
    (hv : ¬(message = "" ∨ pyStrip message = ""))
    (hlen : ¬ Config.MAX_MESSAGE_LENGTH < message.length)
    (htrans : ∀ n, n < Config.MAX_RETRIES →
      isTransient (remote (sendRequest message model temperature max_tokens system_prompt) n)
        = true) :
    (send_message remote elapsed message model temperature max_tokens system_prompt).2 =
      Config.MAX_RETRIES ∧
    ∃ r, (send_message remote elapsed message model temperature max_tokens system_prompt).1 =
      some r ∧ r.success = false ∧ r.error ≠ none := by
  rw [send_message_valid remote elapsed message model temperature max_tokens
    system_prompt hv hlen]
  have h0 := htrans 0 (by decide)
  have h1 := htrans 1 (by decide)
  have h2 := htrans 2 (by decide)
  cases o0 : remote (sendRequest message model temperature max_tokens system_prompt) 0 <;>
    rw [o0] at h0 <;> simp only [isTransient, Bool.false_eq_true] at h0 <;>
    cases o1 : remote (sendRequest message model temperature max_tokens system_prompt) 1 <;>
      rw [o1] at h1 <;> simp only [isTransient, Bool.false_eq_true] at h1 <;>
      cases o2 : remote (sendRequest message model temperature max_tokens system_prompt) 2 <;>
        rw [o2] at h2 <;> simp only [isTransient, Bool.false_eq_true] at h2 <;>
        simp [send_attempts, Config.MAX_RETRIES, o0, o1, o2]

/-- Witness for C2: a valid message against an endpoint that always
raises a rate-limit error yields three calls and a failure. -/
theorem send_message_transient_exhausts_retries_witness :
    (send_message flakyRemote zeroElapsed "hi" "gpt-4" (7/10) 1000 none).2 =
      Config.MAX_RETRIES ∧
    ∃ r, (send_message flakyRemote zeroElapsed "hi" "gpt-4" (7/10) 1000 none).1 =
      some r ∧ r.success = false ∧ r.error ≠ none :=
  send_message_transient_exhausts_retries flakyRemote zeroElapsed "hi" "gpt-4" (7/10)
    1000 none (by decide) (by decide) (fun _ _ => rfl)

/-- C3: `send_message` with a model id absent from the capability table
silently substitutes the default model and behaves exactly as if
`"gpt-3.5-turbo"` had been requested (same result for the same remote
behaviour). -/
theorem send_message_unknown_model_fallback (remote : ApiRequest → Nat → ApiOutcome)
    (elapsed : Nat → Rat) (message model : String) (temperature : Rat)
    (max_tokens : Nat) (system_prompt : Option String)
    (h : alookup models model = none) :
    send_message remote elapsed message model temperature max_tokens system_prompt =
      send_message remote elapsed message "gpt-3.5-turbo" temperature max_tokens
        system_prompt := by
  have hm : resolve_model model = "gpt-3.5-turbo" := by
    unfold resolve_model
    rw [h]
  have hd : resolve_model "gpt-3.5-turbo" = "gpt-3.5-turbo" := rfl
  unfold send_message sendRequest
  rw [hm, hd]

/-- Witness for C3: an unknown model id behaves like the default model. -/
theorem send_message_unknown_model_fallback_witness :
    send_message authRemote zeroElapsed "hi" "gpt-5-mini" (7/10) 1000 none =
      send_message authRemote zeroElapsed "hi" "gpt-3.5-turbo" (7/10) 1000 none :=
  send_message_unknown_model_fallback authRemote zeroElapsed "hi" "gpt-5-mini" (7/10)
    1000 none (by decide)

/-- C4: an empty or whitespace-only message, or a message longer than
`Config.MAX_MESSAGE_LENGTH`, makes `send_message` fail immediately with
`response_time = 0` and zero remote calls. -/
theorem send_message_validation_failure_no_call (remote : ApiRequest → Nat → ApiOutcome)
    (elapsed : Nat → Rat) (message model : String) (temperature : Rat)
    (max_tokens : Nat) (system_prompt : Option String)
    (h : message = "" ∨ pyStrip message = "" ∨
      Config.MAX_MESSAGE_LENGTH < message.length) :
    ∃ r, send_message remote elapsed message model temperature max_tokens system_prompt =
      (some r, 0) ∧ r.success = false ∧ r.response_time = 0 := by
  unfold send_message
  by_cases h1 : message = "" ∨ pyStrip message = ""
  · rw [if_pos h1]
    exact ⟨_, rfl, rfl, rfl⟩
  · have h2 : Config.MAX_MESSAGE_LENGTH < message.length := by tauto
    rw [if_neg h1, if_pos h2]
    exact ⟨_, rfl, rfl, rfl⟩

/-- Witness for C4: the empty message fails with no remote call. -/
theorem send_message_validation_failure_no_call_witness :
    ∃ r, send_message authRemote zeroElapsed "" "gpt-4" (7/10) 1000 none =
      (some r, 0) ∧ r.success = false ∧ r.response_time = 0 :=
  send_message_validation_failure_no_call authRemote zeroElapsed "" "gpt-4" (7/10)
    1000 none (Or.inl rfl)

/-- C5: `add_message` on a conversation id with no stored record returns
`false` and leaves the store untouched (no record is created). -/
theorem add_message_missing_conversation_noop (s : Store) (conversation_id : Nat)
    (role content : String) (metadata : Option (List (String × String)))
    (now nowSave : Nat)
    (h : load_conversation s conversation_id = none) :
    add_message s conversation_id role content metadata now nowSave = (false, s) := by
  unfold add_message
  rw [h]

/-- Witness for C5: appending to an id absent from a store is a no-op. -/
theorem add_message_missing_conversation_noop_witness :
    add_message [(3, Conversation.mk 3 "t" 3 3 [])] 7 "user" "hi" none 8 9 =
      (false, [(3, Conversation.mk 3 "t" 3 3 [])]) :=
  add_message_missing_conversation_noop [(3, Conversation.mk 3 "t" 3 3 [])] 7 "user"
    "hi" none 8 9 rfl

/-- C6 counterexample: creating a conversation with the explicit title
`""` stores the auto-generated title, not the given one — Python's
`if not title:` treats an empty string like `None`, so the claim's
"or the given title otherwise" fails at `title = some ""`. -/
theorem create_conversation_empty_title_counterexample :
    (load_conversation (create_conversation [] (some "") 5 6).2
        (create_conversation [] (some "") 5 6).1).map Conversation.title =
      some (autoTitle 5) ∧
    (load_conversation (create_conversation [] (some "") 5 6).2
        (create_conversation [] (some "") 5 6).1).map Conversation.title ≠
      some "" :=
  ⟨rfl, by decide⟩

/-- C6 (amended): `create_conversation` followed by `load_conversation`
of the returned id yields a record with an empty message list, whose
title is the auto-generated one when the argument was `none` or the
empty string, and the given title otherwise. -/
theorem create_then_load_defaults (s : Store) (title : Option String)
    (now nowSave : Nat) :
    load_conversation (create_conversation s title now nowSave).2
        (create_conversation s title now nowSave).1 =
      some (Conversation.mk now
        (match title with
         | none => autoTitle now
         | some t0 => if t0 = "" then autoTitle now else t0)
        now nowSave []) := by
  unfold create_conversation save_conversation
  rw [load_cons, if_pos rfl]

/-- C7: the temperature `send_message` hands to the remote call is
clamped into `[0, 2]`; requesting `5.0` builds the same request — and
yields the same overall result — as requesting `2.0`. -/
theorem send_message_temperature_clamped (remote : ApiRequest → Nat → ApiOutcome)
    (elapsed : Nat → Rat) (message model : String) (temperature : Rat)
    (max_tokens : Nat) (system_prompt : Option String) :
    0 ≤ (sendRequest message model temperature max_tokens system_prompt).temperature ∧
    (sendRequest message model temperature max_tokens system_prompt).temperature ≤ 2 ∧
    sendRequest message model 5 max_tokens system_prompt =
      sendRequest message model 2 max_tokens system_prompt ∧
    send_message remote elapsed message model 5 max_tokens system_prompt =
      send_message remote elapsed message model 2 max_tokens system_prompt := by
  have hc : clamp_temperature 5 = clamp_temperature 2 := by
    unfold clamp_temperature
    norm_num
  refine ⟨le_max_left 0 _, max_le (by norm_num) (min_le_left _ _), ?_, ?_⟩
  · unfold sendRequest
    rw [hc]
  · unfold send_message sendRequest
    rw [hc]

/-- C8: for a model in the capability table, `estimate_cost` is
`(len(message) / 4 / 1000) * cost_per_1k`; on the four-character message
`"abcd"` this is `(1 / 1000) * cost_per_1k`. -/
theorem estimate_cost_known_model_formula (message model : String) (mi : ModelInfo)
    (h : alookup models model = some mi) :
    estimate_cost message model = (message.length : Rat) / 4 / 1000 * mi.cost_per_1k ∧
    estimate_cost "abcd" model = 1 / 1000 * mi.cost_per_1k := by
  constructor
  · unfold estimate_cost
    rw [h]
  · unfold estimate_cost
    rw [h]
    norm_num [show "abcd".length = 4 from rfl]

/-- Witness for C8: the cost formula at the `"gpt-4"` table entry. -/
theorem estimate_cost_known_model_formula_witness :
    estimate_cost "hi" "gpt-4" = ("hi".length : Rat) / 4 / 1000 *
      (ModelInfo.mk "GPT-4" "Most capable model for complex tasks" 0.03 8192
        true).cost_per_1k ∧
    estimate_cost "abcd" "gpt-4" = 1 / 1000 *
      (ModelInfo.mk "GPT-4" "Most capable model for complex tasks" 0.03 8192
        true).cost_per_1k :=
  estimate_cost_known_model_formula "hi" "gpt-4"
    (ModelInfo.mk "GPT-4" "Most capable model for complex tasks" 0.03 8192 true) rfl

/-- C9: every persisted mutation goes through `save_conversation`, which
overwrites the stored record's `updated_at` with the current time; hence
in every store reachable through the `ChatManager` operations under a
monotone clock, `updated_at ≥ created_at` for every stored record. -/
theorem updated_at_refreshed_and_ge_created_at (s0 : Store) (cid0 : Nat)
    (data : Conversation) (now0 : Nat) {s : Store} {t : Nat}
    {conversation_id : Nat} {c : Conversation}
    (hr : Reachable s t) (hc : load_conversation s conversation_id = some c) :
    (load_conversation (save_conversation s0 cid0 data now0) cid0).map
      Conversation.updated_at = some now0 ∧
    c.created_at ≤ c.updated_at := by
  constructor
  · unfold save_conversation
    rw [load_cons, if_pos rfl]
    rfl
  · exact (reachable_storeWF hr conversation_id c hc).1

/-- Witness for C9: a store holding one freshly created conversation
(created at 3, saved at 4) satisfies the invariant. -/
theorem updated_at_refreshed_and_ge_created_at_witness :
    (load_conversation (save_conversation [] 9 (Conversation.mk 9 "t" 1 1 []) 2) 9).map
      Conversation.updated_at = some 2 ∧
    (Conversation.mk 3 (autoTitle 3) 3 4 []).created_at ≤
      (Conversation.mk 3 (autoTitle 3) 3 4 []).updated_at :=
  updated_at_refreshed_and_ge_created_at [] 9 (Conversation.mk 9 "t" 1 1 []) 2
    (Reachable.create none 3 4 (Reachable.empty 3) (Nat.le_refl 3) (by decide))
    (show load_conversation (create_conversation [] none 3 4).2 3 =
      some (Conversation.mk 3 (autoTitle 3) 3 4 []) from rfl)

/-- C10: `estimate_cost` with a model id absent from the capability table
returns `0.0` — the silent default-model fallback (`resolve_model`)
belongs to `send_message` only and is not applied here. -/
theorem estimate_cost_unknown_model_zero (message model : String)
    (h : alookup models model = none) :
    estimate_cost message model = 0 ∧ resolve_model model = "gpt-3.5-turbo" := by
  constructor
  · unfold estimate_cost
    rw [h]
  · unfold resolve_model
    rw [h]

/-- Witness for C10: an unknown model id costs zero while `send_message`
would have fallen back to the default model. -/
theorem estimate_cost_unknown_model_zero_witness :
    estimate_cost "abcd" "gpt-5" = 0 ∧ resolve_model "gpt-5" = "gpt-3.5-turbo" :=
  estimate_cost_unknown_model_zero "abcd" "gpt-5" rfl

end Chatbot
